import Mathlib

/-!
Shallow embedding of the FastAPI voice-translation gateway (src/main.py).

The gateway validates input, delegates to external collaborators (translation,
speech recognition, speech synthesis, language detection), and maps results or
exceptions into JSON responses.  Collaborators are modelled as oracle functions
returning `Except PyExc`, so theorems quantify over every possible collaborator
behaviour.  Python exception handling (`try`/`except`) is desugared into
explicit case analysis on the oracle outcomes, in the exact order the source
executes its statements.  Temporary-file lifecycle is tracked with explicit
`tempCreated`/`tempDeleted` flags, and collaborator invocations are recorded in
trace lists so that claims about what was (or was not) invoked are statable.
-/

namespace TranslationGateway

/-- A Python exception, as relevant to the handlers in main.py:
`httpExc` is fastapi.HTTPException (a subclass of Exception, hence caught by
a bare `except Exception`), `unknownValue` is sr.UnknownValueError, and
`other` is any other exception whose str() is `msg`. -/
inductive PyExc where
  | httpExc (status : Nat) (detail : String)
  | unknownValue
  | other (msg : String)
  deriving DecidableEq

/-- Python str() of an exception: starlette HTTPException renders as
"status: detail"; sr.UnknownValueError is raised with no arguments, so its
str() is empty; for any other exception we carry its message. -/
def strE : PyExc → String
  | .httpExc code detail => toString code ++ ": " ++ detail
  | .unknownValue => ""
  | .other msg => msg

/-- A JSON value as used by the response bodies of main.py: every field is a
string, null, or a flat string-to-string object (the language catalog). -/
inductive JVal where
  | jstr (s : String)
  | jnull
  | jobj (fields : List (String × String))
  deriving DecidableEq

/-- An HTTP response: status code plus a flat JSON object body. -/
structure Response where
  status : Nat
  body : List (String × JVal)
  deriving DecidableEq

/-- Field lookup in a JSON object body (first occurrence of the key). -/
def lookupField : List (String × JVal) → String → Option JVal
  | [], _ => none
  | (k, v) :: rest, key => if k = key then some v else lookupField rest key

/-- FastAPI renders a raised HTTPException(status, detail) as this response. -/
def errorResponse (status : Nat) (detail : String) : Response :=
  { status := status, body := [("detail", JVal.jstr detail)] }

/-- The 22-entry catalog `indian_languages` from main.py, in source order. -/
def indian_languages : List (String × String) :=
  [("Assamese", "as"),
   ("Bengali", "bn"),
   ("Bodo", "brx"),
   ("Dogri", "doi"),
   ("Gujarati", "gu"),
   ("Hindi", "hi"),
   ("Kannada", "kn"),
   ("Kashmiri", "ks"),
   ("Konkani", "kok"),
   ("Maithili", "mai"),
   ("Malayalam", "ml"),
   ("Manipuri", "mni"),
   ("Marathi", "mr"),
   ("Nepali", "ne"),
   ("Odia", "or"),
   ("Punjabi", "pa"),
   ("Sanskrit", "sa"),
   ("Santali", "sat"),
   ("Sindhi", "sd"),
   ("Tamil", "ta"),
   ("Telugu", "te"),
   ("Urdu", "ur")]

/-- Python str.strip(): remove whitespace characters from both ends of the
string. -/
def pyStrip (s : String) : String :=
  String.mk
    (((s.data.dropWhile Char.isWhitespace).reverse.dropWhile
        Char.isWhitespace).reverse)

/-- Request body of POST /api/translate (pydantic TranslationRequest). -/
structure TranslationRequest where
  text : String
  source_lang : String
  target_lang : String

/-- Request body of POST /api/text-to-speech (pydantic TTSRequest). -/
structure TTSRequest where
  text : String
  target_lang : String

/-- Outcome of one call to the translate handler: the HTTP response plus the
trace of calls made to the translation collaborator, each recorded as
(text, src, dest) exactly as passed to translator.translate. -/
structure TranslateOutcome where
  resp : Response
  calls : List (String × String × String)
  deriving DecidableEq

/-- The translate_text handler of main.py.  The whole body is wrapped in
`try: ... except Exception as e: raise HTTPException(500, "Translation
failed: " + str(e))`.  Because HTTPException is an Exception, the
`raise HTTPException(400, "Text is required")` for empty text is itself
caught by that except clause and re-raised as a 500.  The translator
collaborator is `translator : text → src → dest → Except PyExc String`,
returning the translated text or raising. -/
def translate_text (translator : String → String → String → Except PyExc String)
    (request : TranslationRequest) : TranslateOutcome :=
  let text := pyStrip request.text
  if text = "" then
    { resp := errorResponse 500
        ("Translation failed: " ++ strE (PyExc.httpExc 400 "Text is required")),
      calls := [] }
  else
    match translator text request.source_lang request.target_lang with
    | .ok translated =>
        { resp :=
            { status := 200,
              body := [("translated_text", JVal.jstr translated),
                       ("original_text", JVal.jstr text),
                       ("source_lang", JVal.jstr request.source_lang),
                       ("target_lang", JVal.jstr request.target_lang),
                       ("status", JVal.jstr "success")] },
          calls := [(text, request.source_lang, request.target_lang)] }
    | .error e =>
        { resp := errorResponse 500 ("Translation failed: " ++ strE e),
          calls := [(text, request.source_lang, request.target_lang)] }

/-- The collaborators of the speech_to_text handler of main.py:
`audioLoad` is sr.AudioFile plus recognizer.record on the temp file holding
the uploaded bytes (returning the AudioData, modelled as the byte list it
carries); `recog` is recognizer.recognize_google(audio_data, language=hint);
`detect` is langdetect.detect, which returns a language code or raises. -/
structure STTOracles where
  audioLoad : List Nat → Except PyExc (List Nat)
  recog : List Nat → String → Except PyExc String
  detect : String → Except PyExc String

/-- Outcome of one call to the speech_to_text handler: the HTTP response,
whether the temporary audio file was created, whether os.unlink was reached,
and the trace of language hints passed to recognize_google. -/
structure STTOutcome where
  resp : Response
  tempCreated : Bool
  tempDeleted : Bool
  recogHints : List String

/-- The two except clauses of speech_to_text, in source order:
`except sr.UnknownValueError` gives 400, then `except Exception as e` gives
500 with detail "Speech recognition failed: " + str(e). -/
def sttCatch : PyExc → Response
  | .unknownValue => errorResponse 400 "Could not understand the speech"
  | e => errorResponse 500 ("Speech recognition failed: " ++ strE e)

/-- The speech_to_text handler of main.py.  Steps, mirroring the source:
write the uploaded bytes to a NamedTemporaryFile (delete=False), load it via
sr.AudioFile and record, call recognize_google with language hint
source_lang ++ "-IN", set detected_lang to detect(text) if the recognized
text is non-empty else None, then os.unlink the temp file and return.  The
unlink statement sits on the success path only: when any step raises, the
except clauses run and the temp file is never deleted. -/
def speech_to_text (o : STTOracles) (audioBytes : List Nat)
    (source_lang : String) : STTOutcome :=
  match o.audioLoad audioBytes with
  | .error e =>
      { resp := sttCatch e, tempCreated := true, tempDeleted := false,
        recogHints := [] }
  | .ok audio_data =>
    match o.recog audio_data (source_lang ++ "-IN") with
    | .error e =>
        { resp := sttCatch e, tempCreated := true, tempDeleted := false,
          recogHints := [source_lang ++ "-IN"] }
    | .ok text =>
      if text = "" then
        { resp :=
            { status := 200,
              body := [("recognized_text", JVal.jstr text),
                       ("source_lang", JVal.jstr source_lang),
                       ("detected_lang", JVal.jnull),
                       ("status", JVal.jstr "success")] },
          tempCreated := true, tempDeleted := true,
          recogHints := [source_lang ++ "-IN"] }
      else
        match o.detect text with
        | .error e =>
            { resp := sttCatch e, tempCreated := true, tempDeleted := false,
              recogHints := [source_lang ++ "-IN"] }
        | .ok detected_lang =>
            { resp :=
                { status := 200,
                  body := [("recognized_text", JVal.jstr text),
                           ("source_lang", JVal.jstr source_lang),
                           ("detected_lang", JVal.jstr detected_lang),
                           ("status", JVal.jstr "success")] },
              tempCreated := true, tempDeleted := true,
              recogHints := [source_lang ++ "-IN"] }

/-- The base64 alphabet, as used by Python base64.b64encode. -/
def base64Alphabet : List Char :=
  "ABCDEFGHIJKLMNOPQRSTUVWXYZabcdefghijklmnopqrstuvwxyz0123456789+/".toList

/-- Character of the base64 alphabet at index n (n < 64). -/
def b64Char (n : Nat) : Char := base64Alphabet.getD n 'A'

/-- Standard base64 encoding of a byte list, with padding, as performed by
base64.b64encode(...).decode in main.py. -/
def b64encode : List Nat → String
  | [] => ""
  | [a] =>
      let w := a % 256 * 16
      String.mk [b64Char (a % 256 / 4), b64Char (w % 64)] ++ "=="
  | [a, b] =>
      let w := (a % 256) * 1024 + (b % 256) * 4
      String.mk [b64Char (w / 4096), b64Char (w / 64 % 64), b64Char (w % 64)]
        ++ "="
  | a :: b :: c :: rest =>
      let w := (a % 256) * 65536 + (b % 256) * 256 + c % 256
      String.mk [b64Char (w / 262144), b64Char (w / 4096 % 64),
                 b64Char (w / 64 % 64), b64Char (w % 64)] ++ b64encode rest

/-- The collaborators of the text_to_speech handler of main.py:
`gtts` is the gTTS(text=..., lang=..., slow=False) construction and `save`
is tts.save on the temp file, producing the audio bytes the file then holds
(or raising, e.g. on a network or unsupported-language error).  Reading the
just-written local file back yields exactly those bytes. -/
structure TTSOracles where
  gtts : String → String → Except PyExc Unit
  save : Except PyExc (List Nat)

/-- Outcome of one call to the text_to_speech handler: the HTTP response,
whether the temporary mp3 file was created, whether os.unlink was reached,
and the trace of (text, lang) pairs passed to the synthesis collaborator. -/
structure TTSOutcome where
  resp : Response
  tempCreated : Bool
  tempDeleted : Bool
  synthCalls : List (String × String)

/-- The text_to_speech handler of main.py.  The whole body is wrapped in
`try: ... except Exception as e: raise HTTPException(500, "Text-to-speech
failed: " + str(e))`, so the `raise HTTPException(400, "Text is required")`
for empty trimmed text is caught and re-raised as a 500.  Otherwise it
constructs gTTS, creates a NamedTemporaryFile (delete=False), saves the
synthesized audio to it, reads the bytes back, base64-encodes them, unlinks
the file and returns.  As in speech_to_text, the unlink sits on the success
path only: when save raises after the file was created, the temp file is
never deleted. -/
def text_to_speech (o : TTSOracles) (request : TTSRequest) : TTSOutcome :=
  let text := pyStrip request.text
  if text = "" then
    { resp := errorResponse 500
        ("Text-to-speech failed: " ++ strE (PyExc.httpExc 400 "Text is required")),
      tempCreated := false, tempDeleted := false, synthCalls := [] }
  else
    match o.gtts text request.target_lang with
    | .error e =>
        { resp := errorResponse 500 ("Text-to-speech failed: " ++ strE e),
          tempCreated := false, tempDeleted := false,
          synthCalls := [(text, request.target_lang)] }
    | .ok _ =>
      match o.save with
      | .error e =>
          { resp := errorResponse 500 ("Text-to-speech failed: " ++ strE e),
            tempCreated := true, tempDeleted := false,
            synthCalls := [(text, request.target_lang)] }
      | .ok audio_data =>
          { resp :=
              { status := 200,
                body := [("audio_data", JVal.jstr (b64encode audio_data)),
                         ("target_lang", JVal.jstr request.target_lang),
                         ("status", JVal.jstr "success")] },
            tempCreated := true, tempDeleted := true,
            synthCalls := [(text, request.target_lang)] }

/-- The GET /api/languages handler of main.py: returns the catalog plus
status success.  It reads the process-wide `indian_languages` constant and
takes no input, so it returns the same value on every call. -/
def get_languages : Response :=
  { status := 200,
    body := [("languages", JVal.jobj indian_languages),
             ("status", JVal.jstr "success")] }

/-- The GET /health handler of main.py: a static payload with HTTP 200. -/
def health_check : Response :=
  { status := 200,
    body := [("status", JVal.jstr "FastAPI Voice Translation service is running"),
             ("message", JVal.jstr "All systems operational")] }

/-- The exception that the try body of speech_to_text raises on the given
oracles and input, if any (none when execution reaches the return
statement).  Derived execution trace used to state the error taxonomy. -/
def sttRaised (o : STTOracles) (audioBytes : List Nat)
    (source_lang : String) : Option PyExc :=
  match o.audioLoad audioBytes with
  | .error e => some e
  | .ok audio_data =>
    match o.recog audio_data (source_lang ++ "-IN") with
    | .error e => some e
    | .ok text =>
      if text = "" then none
      else
        match o.detect text with
        | .error e => some e
        | .ok _ => none

/-- A translation collaborator that always succeeds, returning its input. -/
def okTranslator : String → String → String → Except PyExc String :=
  fun text _ _ => Except.ok text

/-- Speech oracles where recognition raises sr.UnknownValueError. -/
def sttOraclesUnknown : STTOracles :=
  ⟨fun b => Except.ok b, fun _ _ => Except.error PyExc.unknownValue,
   fun t => Except.ok t⟩

/-- Speech oracles where recognition succeeds but langdetect raises. -/
def sttOraclesDetectFail : STTOracles :=
  ⟨fun b => Except.ok b, fun _ _ => Except.ok "bonjour",
   fun _ => Except.error (PyExc.other "No features in text.")⟩

/-- Speech oracles where recognition and detection both succeed. -/
def sttOraclesFrench : STTOracles :=
  ⟨fun b => Except.ok b, fun _ _ => Except.ok "bonjour",
   fun _ => Except.ok "fr"⟩

/-- Synthesis oracles where construction and save both succeed. -/
def ttsOraclesOk : TTSOracles :=
  ⟨fun _ _ => Except.ok (), Except.ok [73, 68, 51]⟩

/-- Synthesis oracles where tts.save raises after the temp file exists. -/
def ttsOraclesSaveFail : TTSOracles :=
  ⟨fun _ _ => Except.ok (), Except.error (PyExc.other "Failed to connect")⟩

/-- Appending to a non-empty string never yields the empty string. -/
lemma append_ne_empty (a b : String) (ha : a ≠ "") : a ++ b ≠ "" := by
  intro hc
  apply ha
  apply String.ext
  have hd : a.data ++ b.data = ("" : String).data := by
    rw [← String.data_append, hc]
  simp only [String.data, List.append_eq_nil] at hd
  simpa using hd.1

/-- The uniform envelope condition for one response: the body carries
status success exactly when the HTTP status is 2xx, and otherwise the body
is exactly a detail envelope with a non-empty message. -/
def statusSuccessIff2xx (r : Response) : Prop :=
  (lookupField r.body "status" = some (JVal.jstr "success") ↔
    200 ≤ r.status ∧ r.status < 300) ∧
  (¬(200 ≤ r.status ∧ r.status < 300) →
    ∃ d, r.body = [("detail", JVal.jstr d)] ∧ d ≠ "")

/-- Claim C1: the spec says empty or all-whitespace text makes
/api/translate and /api/text-to-speech return 400 with detail "Text is
required".  The source does write `raise HTTPException(400, "Text is
required")`, but that raise sits inside the try block whose
`except Exception` clause catches HTTPException (a subclass of Exception)
and re-raises it as a 500.  This theorem evaluates both handlers at the
failing inputs: the responses are 500, with the 400 exception folded into
the 500 detail text. -/
theorem empty_text_actually_returns_500 :
    (translate_text okTranslator ⟨"", "en", "hi"⟩).resp =
      errorResponse 500 "Translation failed: 400: Text is required" ∧
    (translate_text okTranslator ⟨"   ", "en", "hi"⟩).resp.status = 500 ∧
    (text_to_speech ttsOraclesOk ⟨"", "hi"⟩).resp =
      errorResponse 500 "Text-to-speech failed: 400: Text is required" ∧
    (text_to_speech ttsOraclesOk ⟨"   ", "hi"⟩).resp.status = 500 := by
  decide

/-- Claim C2: the spec says the temporary audio file is deleted on every
exit path of /api/speech-to-text and /api/text-to-speech.  In the source,
os.unlink sits on the success path only (there is no finally block), so on
the failure paths shown here the file is created but never deleted: a
recognition failure in speech_to_text, and a save failure in
text_to_speech, each leave the temp file on disk. -/
theorem temp_file_leaks_on_failure_paths :
    (speech_to_text sttOraclesUnknown [0] "hi").tempCreated = true ∧
    (speech_to_text sttOraclesUnknown [0] "hi").tempDeleted = false ∧
    (speech_to_text sttOraclesDetectFail [0] "hi").tempCreated = true ∧
    (speech_to_text sttOraclesDetectFail [0] "hi").tempDeleted = false ∧
    (text_to_speech ttsOraclesSaveFail ⟨"hello", "hi"⟩).tempCreated = true ∧
    (text_to_speech ttsOraclesSaveFail ⟨"hello", "hi"⟩).tempDeleted = false := by
  decide

/-- Claim C3, counterexample: the claim says a successful /api/translate
response echoes original_text equal to the request text character for
character, including surrounding whitespace.  With text " hi " and
identical source and target languages, the handler succeeds (2xx, status
success) yet original_text is the stripped "hi", not " hi ". -/
theorem original_text_is_stripped_not_exact :
    (translate_text okTranslator ⟨" hi ", "en", "en"⟩).resp.status = 200 ∧
    lookupField (translate_text okTranslator ⟨" hi ", "en", "en"⟩).resp.body
      "status" = some (JVal.jstr "success") ∧
    lookupField (translate_text okTranslator ⟨" hi ", "en", "en"⟩).resp.body
      "original_text" = some (JVal.jstr "hi") ∧
    JVal.jstr "hi" ≠ JVal.jstr " hi " := by
  decide

/-- Claim C4, counterexample: the claim quantifies over every endpoint,
but GET /health returns HTTP 200 with a status field equal to
"FastAPI Voice Translation service is running", not "success", so the
claimed equivalence fails on the informational endpoints. -/
theorem health_breaks_status_iff_2xx :
    health_check.status = 200 ∧
    lookupField health_check.body "status" ≠ some (JVal.jstr "success") := by
  decide

/-- Claim C6: GET /api/languages always returns the fixed catalog: exactly
22 name-to-code entries, every code non-empty, all 22 codes pairwise
distinct, wrapped with status success and HTTP 200.  The handler reads only
the immutable module-level constant and takes no input, so every call
returns this same value. -/
theorem languages_catalog_well_formed :
    get_languages.status = 200 ∧
    lookupField get_languages.body "languages" =
      some (JVal.jobj indian_languages) ∧
    lookupField get_languages.body "status" = some (JVal.jstr "success") ∧
    indian_languages.length = 22 ∧
    (∀ p ∈ indian_languages, p.2 ≠ "") ∧
    (indian_languages.map Prod.snd).Nodup := by
  decide

/-- Claim C8, counterexample: the claim says a detection failure never
changes the outcome of /api/speech-to-text.  But detect(text) is called
inside the try block, so when langdetect raises (here on recognized text
"bonjour") the whole request fails with a 500 instead of succeeding. -/
theorem detect_failure_changes_outcome :
    (speech_to_text sttOraclesDetectFail [0] "hi").resp.status = 500 ∧
    lookupField (speech_to_text sttOraclesDetectFail [0] "hi").resp.body
      "status" ≠ some (JVal.jstr "success") := by
  decide

/-- An error envelope satisfies the uniform envelope condition whenever its
status is not 2xx and its detail is non-empty. -/
lemma envelope_error (st : Nat) (d : String) (h4 : ¬(200 ≤ st ∧ st < 300))
    (hd : d ≠ "") : statusSuccessIff2xx (errorResponse st d) := by
  refine ⟨?_, fun _ => ⟨d, rfl, hd⟩⟩
  simp only [errorResponse, lookupField, if_neg (by decide : ¬("detail" = "status"))]
  constructor
  · intro hcontra; exact absurd hcontra (by simp)
  · intro h2; exact absurd h2 h4

/-- A 200 response whose body carries status success satisfies the uniform
envelope condition. -/
lemma envelope_success (body : List (String × JVal))
    (h : lookupField body "status" = some (JVal.jstr "success")) :
    statusSuccessIff2xx { status := 200, body := body } := by
  have h23 : (200 : Nat) ≤ 200 ∧ (200 : Nat) < 300 := by decide
  exact ⟨iff_of_true h h23, fun hc => absurd h23 hc⟩

/-- Both except clauses of speech_to_text produce well-formed envelopes:
400 with a fixed message for UnknownValueError, 500 with a prefixed message
otherwise. -/
lemma envelope_sttCatch (e : PyExc) : statusSuccessIff2xx (sttCatch e) := by
  cases e with
  | unknownValue => exact envelope_error 400 _ (by omega) (by decide)
  | httpExc c d =>
      exact envelope_error 500 _ (by omega) (append_ne_empty _ _ (by decide))
  | other m =>
      exact envelope_error 500 _ (by omega) (append_ne_empty _ _ (by decide))

/-- When the try body of speech_to_text raises e, the handler responds with
the translation of e by its except clauses. -/
lemma stt_resp_of_raised (o : STTOracles) (b : List Nat) (s : String)
    (e : PyExc) (h : sttRaised o b s = some e) :
    (speech_to_text o b s).resp = sttCatch e := by
  unfold sttRaised at h
  unfold speech_to_text
  cases hal : o.audioLoad b with
  | error e2 =>
      simp only [hal, Option.some.injEq] at h
      simp only [hal]
      rw [h]
  | ok ad =>
      simp only [hal] at h ⊢
      cases hr : o.recog ad (s ++ "-IN") with
      | error e2 =>
          simp only [hr, Option.some.injEq] at h
          simp only [hr]
          rw [h]
      | ok t =>
          simp only [hr] at h ⊢
          by_cases ht : t = ""
          · rw [if_pos ht] at h
            exact absurd h (by simp)
          · rw [if_neg ht] at h ⊢
            cases hd : o.detect t with
            | error e2 =>
                simp only [hd, Option.some.injEq] at h
                simp only [hd]
                rw [h]
            | ok d =>
                rw [hd] at h
                exact absurd h (by simp)

/-- Claim C3 (amended): a successful (2xx) /api/translate response with
identical source and target languages has status success and echoes
original_text equal to the trimmed request text (the handler strips the
text before echoing it, so surrounding whitespace is not preserved). -/
theorem translate_success_echoes_trimmed
    (translator : String → String → String → Except PyExc String)
    (request : TranslationRequest)
    (_hLang : request.source_lang = request.target_lang)
    (h2 : 200 ≤ (translate_text translator request).resp.status ∧
          (translate_text translator request).resp.status < 300) :
    lookupField (translate_text translator request).resp.body "status" =
      some (JVal.jstr "success") ∧
    lookupField (translate_text translator request).resp.body "original_text" =
      some (JVal.jstr (pyStrip request.text)) := by
  by_cases ht : pyStrip request.text = ""
  · unfold translate_text at h2
    simp [ht, errorResponse] at h2
  · cases htr : translator (pyStrip request.text) request.source_lang
        request.target_lang with
    | ok t =>
        unfold translate_text
        simp [ht, htr, lookupField]
    | error e =>
        unfold translate_text at h2
        simp [ht, htr, errorResponse] at h2

/-- Witness for the amended claim C3 at a concrete whitespace-padded
input. -/
theorem translate_success_echoes_trimmed_witness :
    lookupField (translate_text okTranslator ⟨" hi ", "en", "en"⟩).resp.body
      "status" = some (JVal.jstr "success") ∧
    lookupField (translate_text okTranslator ⟨" hi ", "en", "en"⟩).resp.body
      "original_text" = some (JVal.jstr (pyStrip " hi ")) :=
  translate_success_echoes_trimmed okTranslator ⟨" hi ", "en", "en"⟩ rfl
    (by decide)

/-- Claim C4 (amended): on the four business endpoints the body carries
status success exactly when the HTTP status is 2xx, and every failure is
the error envelope with a non-empty detail and no result fields.  (The
informational endpoints / and /health are excluded: they return 200 with
other status strings.) -/
theorem api_envelope_invariant
    (translator : String → String → String → Except PyExc String)
    (request : TranslationRequest) (o : STTOracles) (b : List Nat)
    (s : String) (o2 : TTSOracles) (request2 : TTSRequest) :
    statusSuccessIff2xx (translate_text translator request).resp ∧
    statusSuccessIff2xx (speech_to_text o b s).resp ∧
    statusSuccessIff2xx (text_to_speech o2 request2).resp ∧
    statusSuccessIff2xx get_languages := by
  refine ⟨?_, ?_, ?_, ?_⟩
  · simp only [translate_text]
    split
    · exact envelope_error 500 _ (by omega) (append_ne_empty _ _ (by decide))
    · split
      · exact envelope_success _ (by rfl)
      · exact envelope_error 500 _ (by omega)
          (append_ne_empty _ _ (by decide))
  · simp only [speech_to_text]
    split
    · exact envelope_sttCatch _
    · split
      · exact envelope_sttCatch _
      · split
        · exact envelope_success _ (by rfl)
        · split
          · exact envelope_sttCatch _
          · exact envelope_success _ (by rfl)
  · simp only [text_to_speech]
    split
    · exact envelope_error 500 _ (by omega) (append_ne_empty _ _ (by decide))
    · split
      · exact envelope_error 500 _ (by omega)
          (append_ne_empty _ _ (by decide))
      · split
        · exact envelope_error 500 _ (by omega)
            (append_ne_empty _ _ (by decide))
        · exact envelope_success _ (by rfl)
  · exact envelope_success _ (by rfl)

/-- Witness for the amended claim C4: the equivalence instantiated on a
concrete successful translate call. -/
theorem api_envelope_invariant_witness :
    lookupField (translate_text okTranslator ⟨"x", "en", "hi"⟩).resp.body
      "status" = some (JVal.jstr "success") :=
  ((api_envelope_invariant okTranslator ⟨"x", "en", "hi"⟩ sttOraclesFrench
      [0] "hi" ttsOraclesOk ⟨"x", "hi"⟩).1).1.mpr (by decide)

/-- Claim C5: when the try body of /api/speech-to-text raises, the handler
returns 400 with the fixed message if the exception is UnknownValueError
(the recognition collaborator could not decode any speech), and 500 with a
detail of the form "Speech recognition failed: " followed by str(e) for any
other collaborator or I/O exception, so the detail includes the underlying
failure description. -/
theorem stt_error_taxonomy (o : STTOracles) (b : List Nat) (s : String)
    (e : PyExc) (h : sttRaised o b s = some e) :
    (e = PyExc.unknownValue →
      (speech_to_text o b s).resp =
        errorResponse 400 "Could not understand the speech") ∧
    (e ≠ PyExc.unknownValue →
      (speech_to_text o b s).resp =
        errorResponse 500 ("Speech recognition failed: " ++ strE e)) := by
  have hres := stt_resp_of_raised o b s e h
  constructor
  · intro he
    subst he
    rw [hres]
    rfl
  · intro he
    rw [hres]
    cases e with
    | unknownValue => exact absurd rfl he
    | httpExc c d => rfl
    | other m => rfl

/-- Witness for claim C5: a recognizer that raises UnknownValueError makes
the handler answer 400 with the fixed message. -/
theorem stt_error_taxonomy_witness :
    (speech_to_text sttOraclesUnknown [0] "hi").resp =
      errorResponse 400 "Could not understand the speech" :=
  (stt_error_taxonomy sttOraclesUnknown [0] "hi" PyExc.unknownValue
    (by decide)).1 rfl

/-- Claim C7: every language hint /api/speech-to-text passes to the
recognition collaborator is exactly source_lang with "-IN" appended; the
hint list is empty only when execution raised before reaching recognition,
and whenever loading the audio succeeds, recognition is invoked exactly
once with that hint. -/
theorem stt_hint_appends_IN (o : STTOracles) (b : List Nat) (s : String) :
    ((speech_to_text o b s).recogHints = [] ∨
     (speech_to_text o b s).recogHints = [s ++ "-IN"]) ∧
    (∀ ad, o.audioLoad b = Except.ok ad →
      (speech_to_text o b s).recogHints = [s ++ "-IN"]) := by
  cases hal : o.audioLoad b with
  | error e =>
      constructor
      · left
        simp only [speech_to_text, hal]
      · intro ad had
        exact Except.noConfusion had
  | ok ad0 =>
      have hh : (speech_to_text o b s).recogHints = [s ++ "-IN"] := by
        simp only [speech_to_text, hal]
        split
        · rfl
        · split
          · rfl
          · split
            · rfl
            · rfl
      exact ⟨Or.inr hh, fun _ _ => hh⟩

/-- Witness for claim C7 on concrete oracles and source language "hi". -/
theorem stt_hint_appends_IN_witness :
    (speech_to_text sttOraclesFrench [0] "hi").recogHints = ["hi" ++ "-IN"] :=
  (stt_hint_appends_IN sttOraclesFrench [0] "hi").2 [0] rfl

/-- Claim C8 (amended): on a successful /api/speech-to-text call,
detected_lang is the detection result on the recognized text when that text
is non-empty, and null when the recognized text is empty; but a detection
failure is raised inside the try block and therefore fails the whole
request through the except clauses instead of leaving the outcome
unchanged. -/
theorem stt_detected_lang_spec (o : STTOracles) (b : List Nat) (s : String)
    (ad : List Nat) (t : String)
    (h1 : o.audioLoad b = Except.ok ad)
    (h2 : o.recog ad (s ++ "-IN") = Except.ok t) :
    (t = "" →
      (speech_to_text o b s).resp.status = 200 ∧
      lookupField (speech_to_text o b s).resp.body "detected_lang" =
        some JVal.jnull) ∧
    (∀ d, t ≠ "" → o.detect t = Except.ok d →
      (speech_to_text o b s).resp.status = 200 ∧
      lookupField (speech_to_text o b s).resp.body "detected_lang" =
        some (JVal.jstr d)) ∧
    (∀ e, t ≠ "" → o.detect t = Except.error e →
      (speech_to_text o b s).resp = sttCatch e) := by
  refine ⟨?_, ?_, ?_⟩
  · intro ht
    subst ht
    simp [speech_to_text, h1, h2, lookupField]
  · intro d ht hd
    simp [speech_to_text, h1, h2, ht, hd, lookupField]
  · intro e ht hd
    simp [speech_to_text, h1, h2, ht, hd]

/-- Witness for the amended claim C8: detection on recognized text
"bonjour" yields detected_lang "fr" on a 200 response. -/
theorem stt_detected_lang_spec_witness :
    (speech_to_text sttOraclesFrench [0] "hi").resp.status = 200 ∧
    lookupField (speech_to_text sttOraclesFrench [0] "hi").resp.body
      "detected_lang" = some (JVal.jstr "fr") :=
  (stt_detected_lang_spec sttOraclesFrench [0] "hi" [0] "bonjour" rfl
    rfl).2.1 "fr" (by decide) rfl

/-- Claim C9: for non-empty trimmed text, /api/translate invokes the
translation collaborator exactly once, with the trimmed text and with the
source and target codes exactly as supplied by the caller.  The statement
quantifies over arbitrary code strings, so no catalog membership check is
involved. -/
theorem translate_passes_codes_through
    (translator : String → String → String → Except PyExc String)
    (request : TranslationRequest) (h : pyStrip request.text ≠ "") :
    (translate_text translator request).calls =
      [(pyStrip request.text, request.source_lang, request.target_lang)] := by
  simp only [translate_text, if_neg h]
  split
  · rfl
  · rfl

/-- Witness for claim C9 at codes "xx" and "qq", neither of which is in
the 22-entry catalog. -/
theorem translate_passes_codes_through_witness :
    (translate_text okTranslator ⟨"hi", "xx", "qq"⟩).calls =
      [(pyStrip "hi", "xx", "qq")] :=
  translate_passes_codes_through okTranslator ⟨"hi", "xx", "qq"⟩ (by decide)

/-- Claim C10: when the trimmed text is empty, /api/translate and
/api/text-to-speech reject the request before any collaborator call and
before any temporary file is created: the collaborator trace is empty, no
temp file exists, and the response is an error status. -/
theorem empty_text_no_side_effects
    (translator : String → String → String → Except PyExc String)
    (request : TranslationRequest) (o : TTSOracles) (request2 : TTSRequest)
    (h1 : pyStrip request.text = "") (h2 : pyStrip request2.text = "") :
    (translate_text translator request).calls = [] ∧
    400 ≤ (translate_text translator request).resp.status ∧
    (text_to_speech o request2).synthCalls = [] ∧
    (text_to_speech o request2).tempCreated = false ∧
    400 ≤ (text_to_speech o request2).resp.status := by
  simp only [translate_text, text_to_speech, if_pos h1, if_pos h2,
    errorResponse]
  exact ⟨trivial, by omega, trivial, trivial, by omega⟩

/-- Witness for claim C10 at empty and all-whitespace texts. -/
theorem empty_text_no_side_effects_witness :
    (translate_text okTranslator ⟨"", "en", "hi"⟩).calls = [] ∧
    400 ≤ (translate_text okTranslator ⟨"", "en", "hi"⟩).resp.status ∧
    (text_to_speech ttsOraclesOk ⟨"   ", "hi"⟩).synthCalls = [] ∧
    (text_to_speech ttsOraclesOk ⟨"   ", "hi"⟩).tempCreated = false ∧
    400 ≤ (text_to_speech ttsOraclesOk ⟨"   ", "hi"⟩).resp.status :=
  empty_text_no_side_effects okTranslator ⟨"", "en", "hi"⟩ ttsOraclesOk
    ⟨"   ", "hi"⟩ (by decide) (by decide)

end TranslationGateway
